import Mathlib

/-!
Verification development for the ALMG coordinate tracker and its site glue
code (repository bradleyshields/LLM-straight-talk).

The tracker core (classifier, session aggregator, session store) is
documented in the repository (tools/README.md zone table and the design
document) but its implementation file is not present in the source tree;
those components are modelled from the specification, as marked on each
definition.  The site script assets/js/main.js is present and is embedded
directly.

Coordinates are modelled as rational numbers; the decimal thresholds of the
zone table are written with `mkRat` (for instance `mkRat 3 10` is 0.3) so
that concrete instances evaluate inside the kernel.
-/

namespace ALMG

/-- Modelled from the spec: the six zone labels of section 3 and the
tools/README.md zone table. -/
inductive ZoneLabel where
  | Green
  | Gold
  | Yellow
  | Red
  | Purple
  | Unclassified
deriving DecidableEq, Repr

/-- Modelled from the spec: the Green band of section 4.1, x<0.3, y<0.3, z>0.8. -/
def greenBand (x y z : ℚ) : Prop := x < mkRat 3 10 ∧ y < mkRat 3 10 ∧ mkRat 8 10 < z

/-- Modelled from the spec: the Gold band of section 4.1, x<0.5, y<0.5, z>0.7. -/
def goldBand (x y z : ℚ) : Prop := x < mkRat 5 10 ∧ y < mkRat 5 10 ∧ mkRat 7 10 < z

/-- Modelled from the spec: the Yellow band of section 4.1, x<0.8, y<0.8, z>0.4. -/
def yellowBand (x y z : ℚ) : Prop := x < mkRat 8 10 ∧ y < mkRat 8 10 ∧ mkRat 4 10 < z

/-- Modelled from the spec: the Red band of section 4.1, x<0.95, y<0.85, z>0.2. -/
def redBand (x y z : ℚ) : Prop := x < mkRat 95 100 ∧ y < mkRat 85 100 ∧ mkRat 2 10 < z

/-- Modelled from the spec: the Purple band of section 4.1, x>0.9, y>0.85, z<0.2. -/
def purpleBand (x y z : ℚ) : Prop := mkRat 9 10 < x ∧ mkRat 85 100 < y ∧ z < mkRat 2 10

instance decGreenBand : ∀ x y z, Decidable (greenBand x y z) := fun _ _ _ => by
  unfold greenBand; infer_instance

instance decGoldBand : ∀ x y z, Decidable (goldBand x y z) := fun _ _ _ => by
  unfold goldBand; infer_instance

instance decYellowBand : ∀ x y z, Decidable (yellowBand x y z) := fun _ _ _ => by
  unfold yellowBand; infer_instance

instance decRedBand : ∀ x y z, Decidable (redBand x y z) := fun _ _ _ => by
  unfold redBand; infer_instance

instance decPurpleBand : ∀ x y z, Decidable (purpleBand x y z) := fun _ _ _ => by
  unfold purpleBand; infer_instance

/-- Modelled from the spec: `classify(x, y, z) -> ZoneLabel` of section 4.1,
first match wins over the ordered bands Green, Gold, Yellow, Red, Purple,
with Unclassified when no band matches. -/
def classify (x y z : ℚ) : ZoneLabel :=
  if greenBand x y z then .Green
  else if goldBand x y z then .Gold
  else if yellowBand x y z then .Yellow
  else if redBand x y z then .Red
  else if purpleBand x y z then .Purple
  else .Unclassified

/-- Modelled from the spec: a Point of section 3, one classified
conversational turn. -/
structure Point where
  turn : ℕ
  x : ℚ
  y : ℚ
  z : ℚ
  zone : ZoneLabel
  topic : Option String
deriving DecidableEq, Repr

/-- Modelled from the spec: one zone transition record of section 4.2,
stamped with the turn of the later point. -/
structure Transition where
  turn : ℕ
  from_zone : ZoneLabel
  to_zone : ZoneLabel
deriving DecidableEq, Repr

/-- Modelled from the spec: the drift direction enumeration of section 3. -/
inductive Drift where
  | stable
  | toward_green
  | toward_gold
  | toward_yellow
  | toward_red
  | toward_purple
deriving DecidableEq, Repr

/-- Modelled from the spec: the Summary of section 3.  The averages and the
dominant zone are `Option` valued so that an empty trajectory is reported as
no data rather than as a silent zero. -/
structure Summary where
  avg_x : Option ℚ
  avg_y : Option ℚ
  avg_z : Option ℚ
  dominant_zone : Option ZoneLabel
  drift_direction : Drift
  transitions : List Transition
deriving DecidableEq, Repr

/-- Modelled from the spec: a Session of section 3. -/
structure Session where
  session_id : String
  model : Option String
  trajectory : List Point
  summary : Summary
deriving DecidableEq, Repr

/-- Modelled from the spec: arithmetic mean of a list of rationals, none on
the empty list (section 4.2, no data on an empty trajectory). -/
def meanOpt : List ℚ → Option ℚ
  | [] => none
  | l => some (l.sum / l.length)

/-- Modelled from the spec: severity rank along the implicit ordering
Green < Gold < Yellow < Red < Purple of section 4.2; Unclassified carries
no rank. -/
def severity : ZoneLabel → Option ℕ
  | .Green => some 0
  | .Gold => some 1
  | .Yellow => some 2
  | .Red => some 3
  | .Purple => some 4
  | .Unclassified => none

/-- Modelled from the spec: the drift value naming a destination zone. -/
def towardZone : ZoneLabel → Drift
  | .Green => .toward_green
  | .Gold => .toward_gold
  | .Yellow => .toward_yellow
  | .Red => .toward_red
  | .Purple => .toward_purple
  | .Unclassified => .stable

/-- List of zones in chronological order of first appearance. -/
def firstOccurrences (l : List ZoneLabel) : List ZoneLabel :=
  l.foldl (fun acc z => if z ∈ acc then acc else acc ++ [z]) []

/-- Modelled from the spec: the dominant zone of section 4.2, the label with
the highest occurrence count, ties broken by chronological first appearance;
none on an empty trajectory. -/
def dominantZone (zones : List ZoneLabel) : Option ZoneLabel :=
  (firstOccurrences zones).foldl
    (fun best cand =>
      match best with
      | none => some cand
      | some b => if zones.count b < zones.count cand then some cand else best)
    none

/-- Modelled from the spec: the transition list of section 4.2, one record
per adjacent pair of points whose zone differs. -/
def transitionsOf : List Point → List Transition
  | [] => []
  | [_] => []
  | p :: q :: rest =>
      (if p.zone ≠ q.zone then [⟨q.turn, p.zone, q.zone⟩] else []) ++
        transitionsOf (q :: rest)

/-- Modelled from the spec: the drift direction of section 4.2.  A session
of at most three points compares the zone of the first point with the zone
of the last point; a longer session compares the mean severity of the first
half of the points with that of the second half, naming the dominant zone of
the second half as the destination.  The exact windowing is flagged as an
open question in the design document; this is the documented default. -/
def driftOf (traj : List Point) : Drift :=
  match traj with
  | [] => .stable
  | [_] => .stable
  | first :: second :: rest =>
      let whole := first :: second :: rest
      if whole.length ≤ 3 then
        let last := (second :: rest).getLast (by simp)
        match severity first.zone, severity last.zone with
        | some a, some b => if a = b then .stable else towardZone last.zone
        | _, _ => .stable
      else
        let half := whole.length / 2
        let sevs₁ := (whole.take half).filterMap (fun p => severity p.zone)
        let sevs₂ := (whole.drop half).filterMap (fun p => severity p.zone)
        if sevs₁ = [] ∨ sevs₂ = [] then .stable
        else if sevs₁.sum * sevs₂.length = sevs₂.sum * sevs₁.length then .stable
        else
          match dominantZone ((whole.drop half).map Point.zone) with
          | some d => towardZone d
          | none => .stable

/-- Modelled from the spec: recompute the full Summary from the trajectory
(section 4.2); the summary is fully derived, never hand edited. -/
def computeSummary (traj : List Point) : Summary where
  avg_x := meanOpt (traj.map Point.x)
  avg_y := meanOpt (traj.map Point.y)
  avg_z := meanOpt (traj.map Point.z)
  dominant_zone := dominantZone (traj.map Point.zone)
  drift_direction := driftOf traj
  transitions := transitionsOf traj

/-- Modelled from the spec: `add_point` of section 4.2; assigns the next
sequential turn number, classifies via section 4.1, appends the Point and
recomputes the Summary. -/
def add_point (s : Session) (x y z : ℚ) (topic : Option String) : Session :=
  let turn := s.trajectory.length + 1
  let p : Point := ⟨turn, x, y, z, classify x y z, topic⟩
  let traj := s.trajectory ++ [p]
  { s with trajectory := traj, summary := computeSummary traj }

/-- Modelled from the spec: a fresh session holds an empty trajectory and
the summary recomputed from it. -/
def freshSession (sid : String) (model : Option String) : Session :=
  ⟨sid, model, [], computeSummary []⟩

/-- Fold `add_point` over a list of inputs, oldest first. -/
def addAll (s : Session) : List (ℚ × ℚ × ℚ × Option String) → Session
  | [] => s
  | (x, y, z, t) :: rest => addAll (add_point s x y z t) rest

/-- Modelled from the spec: the JSON documents of section 6, the only wire
level contract of the store. -/
inductive Json where
  | null
  | str (s : String)
  | num (q : ℚ)
  | arr (elements : List Json)
  | obj (fields : List (String × Json))

/-- Zone labels as serialized in the JSON layout. -/
def zoneToString : ZoneLabel → String
  | .Green => "Green"
  | .Gold => "Gold"
  | .Yellow => "Yellow"
  | .Red => "Red"
  | .Purple => "Purple"
  | .Unclassified => "Unclassified"

/-- Inverse of `zoneToString`, none on an unknown label. -/
def zoneOfString (s : String) : Option ZoneLabel :=
  if s = "Green" then some .Green
  else if s = "Gold" then some .Gold
  else if s = "Yellow" then some .Yellow
  else if s = "Red" then some .Red
  else if s = "Purple" then some .Purple
  else if s = "Unclassified" then some .Unclassified
  else none

/-- Drift directions as serialized in the JSON layout. -/
def driftToString : Drift → String
  | .stable => "stable"
  | .toward_green => "toward_green"
  | .toward_gold => "toward_gold"
  | .toward_yellow => "toward_yellow"
  | .toward_red => "toward_red"
  | .toward_purple => "toward_purple"

/-- Inverse of `driftToString`, none on an unknown direction. -/
def driftOfString (s : String) : Option Drift :=
  if s = "stable" then some .stable
  else if s = "toward_green" then some .toward_green
  else if s = "toward_gold" then some .toward_gold
  else if s = "toward_yellow" then some .toward_yellow
  else if s = "toward_red" then some .toward_red
  else if s = "toward_purple" then some .toward_purple
  else none

/-- An optional string serializes to a string or to null (section 6). -/
def optStrJson : Option String → Json
  | none => .null
  | some s => .str s

/-- An absent average serializes to null, reporting no data. -/
def optNumJson : Option ℚ → Json
  | none => .null
  | some q => .num q

/-- An undefined dominant zone serializes to null. -/
def optZoneJson : Option ZoneLabel → Json
  | none => .null
  | some z => .str (zoneToString z)

/-- Modelled from the spec: one trajectory entry of the section 6 layout. -/
def savePoint (p : Point) : Json :=
  .obj [("turn", .num p.turn), ("x", .num p.x), ("y", .num p.y), ("z", .num p.z),
        ("zone", .str (zoneToString p.zone)), ("topic", optStrJson p.topic)]

/-- Modelled from the spec: one transition record of the section 6 layout. -/
def saveTransition (t : Transition) : Json :=
  .obj [("turn", .num t.turn), ("from", .str (zoneToString t.from_zone)),
        ("to", .str (zoneToString t.to_zone))]

/-- Modelled from the spec: the summary object of the section 6 layout. -/
def saveSummary (m : Summary) : Json :=
  .obj [("avg_x", optNumJson m.avg_x), ("avg_y", optNumJson m.avg_y),
        ("avg_z", optNumJson m.avg_z), ("dominant_zone", optZoneJson m.dominant_zone),
        ("drift_direction", .str (driftToString m.drift_direction)),
        ("transitions", .arr (m.transitions.map saveTransition))]

/-- Modelled from the spec: `save` of section 4.3, serializing a Session to
the JSON layout of section 6. -/
def save (s : Session) : Json :=
  .obj [("session_id", .str s.session_id), ("model", optStrJson s.model),
        ("trajectory", .arr (s.trajectory.map savePoint)),
        ("summary", saveSummary s.summary)]

/-- Field access in a JSON object, a descriptive error when absent. -/
def getField : List (String × Json) → String → Except String Json
  | [], name => .error ("missing required field " ++ name)
  | (k, v) :: rest, name => if k = name then .ok v else getField rest name

/-- Expect a JSON object. -/
def asObj : Json → Except String (List (String × Json))
  | .obj fields => .ok fields
  | _ => .error "expected an object"

/-- Expect a JSON array. -/
def asArr : Json → Except String (List Json)
  | .arr elements => .ok elements
  | _ => .error "expected an array"

/-- Expect a JSON string. -/
def asString : Json → Except String String
  | .str s => .ok s
  | _ => .error "expected a string"

/-- Expect a JSON string or null. -/
def asOptString : Json → Except String (Option String)
  | .null => .ok none
  | .str s => .ok (some s)
  | _ => .error "expected a string or null"

/-- Expect a JSON number or null. -/
def asOptNum : Json → Except String (Option ℚ)
  | .null => .ok none
  | .num q => .ok (some q)
  | _ => .error "expected a number or null"

/-- Expect a nonnegative integer turn number. -/
def asNat : Json → Except String ℕ
  | .num q => if q.den = 1 ∧ 0 ≤ q.num then .ok q.num.toNat
              else .error "expected a nonnegative integer"
  | _ => .error "expected a number"

/-- Expect a coordinate value, rejecting values outside the range 0 to 1. -/
def asCoord : Json → Except String ℚ
  | .num q => if 0 ≤ q ∧ q ≤ 1 then .ok q
              else .error "coordinate value out of range"
  | _ => .error "expected a number"

/-- Expect a known zone label string. -/
def asZone : Json → Except String ZoneLabel
  | .str s =>
      match zoneOfString s with
      | some z => .ok z
      | none => .error "unknown zone label"
  | _ => .error "expected a zone string"

/-- Expect a known zone label string or null. -/
def asOptZone : Json → Except String (Option ZoneLabel)
  | .null => .ok none
  | .str s =>
      match zoneOfString s with
      | some z => .ok (some z)
      | none => .error "unknown zone label"
  | _ => .error "expected a zone string or null"

/-- Expect a known drift direction string. -/
def asDrift : Json → Except String Drift
  | .str s =>
      match driftOfString s with
      | some d => .ok d
      | none => .error "unknown drift direction"
  | _ => .error "expected a drift string"

/-- Look up a required field and feed it to a value parser. -/
def parseField {α : Type} (fields : List (String × Json)) (name : String)
    (p : Json → Except String α) : Except String α :=
  match getField fields name with
  | .error e => .error e
  | .ok j => p j

/-- Modelled from the spec: deserialize one trajectory entry, rejecting a
missing required field or an out-of-range coordinate. -/
def parsePoint (j : Json) : Except String Point :=
  match asObj j with
  | .error e => .error e
  | .ok fields =>
      match parseField fields "turn" asNat, parseField fields "x" asCoord,
          parseField fields "y" asCoord, parseField fields "z" asCoord,
          parseField fields "zone" asZone, parseField fields "topic" asOptString with
      | .ok turn, .ok x, .ok y, .ok z, .ok zone, .ok topic =>
          .ok ⟨turn, x, y, z, zone, topic⟩
      | .error e, _, _, _, _, _ => .error e
      | _, .error e, _, _, _, _ => .error e
      | _, _, .error e, _, _, _ => .error e
      | _, _, _, .error e, _, _ => .error e
      | _, _, _, _, .error e, _ => .error e
      | _, _, _, _, _, .error e => .error e

/-- Deserialize the trajectory array, failing on any bad entry. -/
def parsePoints : List Json → Except String (List Point)
  | [] => .ok []
  | j :: rest =>
      match parsePoint j with
      | .error e => .error e
      | .ok p =>
          match parsePoints rest with
          | .error e => .error e
          | .ok ps => .ok (p :: ps)

/-- Expect the trajectory array and deserialize every entry. -/
def asPointList (j : Json) : Except String (List Point) :=
  match asArr j with
  | .error e => .error e
  | .ok l => parsePoints l

/-- Modelled from the spec: deserialize one transition record. -/
def parseTransition (j : Json) : Except String Transition :=
  match asObj j with
  | .error e => .error e
  | .ok fields =>
      match parseField fields "turn" asNat, parseField fields "from" asZone,
          parseField fields "to" asZone with
      | .ok turn, .ok f, .ok t => .ok ⟨turn, f, t⟩
      | .error e, _, _ => .error e
      | _, .error e, _ => .error e
      | _, _, .error e => .error e

/-- Deserialize the transitions array, failing on any bad entry. -/
def parseTransitions : List Json → Except String (List Transition)
  | [] => .ok []
  | j :: rest =>
      match parseTransition j with
      | .error e => .error e
      | .ok t =>
          match parseTransitions rest with
          | .error e => .error e
          | .ok ts => .ok (t :: ts)

/-- Expect the transitions array and deserialize every entry. -/
def asTransitionList (j : Json) : Except String (List Transition) :=
  match asArr j with
  | .error e => .error e
  | .ok l => parseTransitions l

/-- Modelled from the spec: deserialize the summary object. -/
def parseSummary (j : Json) : Except String Summary :=
  match asObj j with
  | .error e => .error e
  | .ok fields =>
      match parseField fields "avg_x" asOptNum, parseField fields "avg_y" asOptNum,
          parseField fields "avg_z" asOptNum,
          parseField fields "dominant_zone" asOptZone,
          parseField fields "drift_direction" asDrift,
          parseField fields "transitions" asTransitionList with
      | .ok ax, .ok ay, .ok az, .ok dz, .ok dd, .ok ts =>
          .ok ⟨ax, ay, az, dz, dd, ts⟩
      | .error e, _, _, _, _, _ => .error e
      | _, .error e, _, _, _, _ => .error e
      | _, _, .error e, _, _, _ => .error e
      | _, _, _, .error e, _, _ => .error e
      | _, _, _, _, .error e, _ => .error e
      | _, _, _, _, _, .error e => .error e

/-- Modelled from the spec: `load` of section 4.3, rejecting malformed
documents (missing required fields, out-of-range coordinate values,
non-monotonic turn numbers) with a descriptive error rather than producing
a partially populated Session. -/
def load (j : Json) : Except String Session :=
  match asObj j with
  | .error e => .error e
  | .ok fields =>
      match parseField fields "session_id" asString,
          parseField fields "model" asOptString,
          parseField fields "trajectory" asPointList,
          parseField fields "summary" parseSummary with
      | .ok sid, .ok model, .ok traj, .ok summ =>
          if List.Chain' (fun p q => p.turn < q.turn) traj then
            .ok ⟨sid, model, traj, summ⟩
          else .error "non-monotonic turn numbers"
      | .error e, _, _, _ => .error e
      | _, .error e, _, _ => .error e
      | _, _, .error e, _ => .error e
      | _, _, _, .error e => .error e

/-- Coordinates of a point all lie between 0 and 1. -/
def Point.inRange (p : Point) : Prop :=
  0 ≤ p.x ∧ p.x ≤ 1 ∧ 0 ≤ p.y ∧ p.y ≤ 1 ∧ 0 ≤ p.z ∧ p.z ≤ 1

instance : ∀ p : Point, Decidable p.inRange := fun p => by
  unfold Point.inRange; infer_instance

/-- Modelled from the spec: a valid Session of section 3, coordinates in
range, strictly increasing turn numbers, and a summary consistent with the
trajectory. -/
def Session.Valid (s : Session) : Prop :=
  (∀ p ∈ s.trajectory, p.inRange) ∧
    List.Chain' (fun p q => p.turn < q.turn) s.trajectory ∧
    s.summary = computeSummary s.trajectory

instance : ∀ s : Session, Decidable s.Valid := fun s => by
  unfold Session.Valid; infer_instance

/-- Success flag of a store operation. -/
def okB {α : Type} : Except String α → Bool
  | .ok _ => true
  | .error _ => false

/-- A well-formed session identifier field is a string. -/
def wfString : Json → Bool
  | .str _ => true
  | _ => false

/-- A well-formed model field is a string or null. -/
def wfOptString : Json → Bool
  | .null => true
  | .str _ => true
  | _ => false

/-- A well-formed average field is a number or null. -/
def wfOptNum : Json → Bool
  | .null => true
  | .num _ => true
  | _ => false

/-- A well-formed turn number is a nonnegative integer. -/
def wfNat : Json → Bool
  | .num q => decide (q.den = 1 ∧ 0 ≤ q.num)
  | _ => false

/-- A well-formed coordinate is a number between 0 and 1. -/
def wfCoord : Json → Bool
  | .num q => decide (0 ≤ q ∧ q ≤ 1)
  | _ => false

/-- A well-formed zone field names a known zone label. -/
def wfZone : Json → Bool
  | .str s => (zoneOfString s).isSome
  | _ => false

/-- A well-formed dominant zone field names a known zone label or is null. -/
def wfOptZone : Json → Bool
  | .null => true
  | .str s => (zoneOfString s).isSome
  | _ => false

/-- A well-formed drift field names a known drift direction. -/
def wfDrift : Json → Bool
  | .str s => (driftOfString s).isSome
  | _ => false

/-- A required field is present and satisfies a value check. -/
def fieldCheck (fields : List (String × Json)) (name : String)
    (check : Json → Bool) : Bool :=
  match getField fields name with
  | .ok j => check j
  | .error _ => false

/-- Modelled from the spec: a well-formed trajectory entry of the section 6
layout, all required fields present and coordinates in range. -/
def wfPoint : Json → Bool
  | .obj fields =>
      fieldCheck fields "turn" wfNat && fieldCheck fields "x" wfCoord &&
        fieldCheck fields "y" wfCoord && fieldCheck fields "z" wfCoord &&
        fieldCheck fields "zone" wfZone && fieldCheck fields "topic" wfOptString
  | _ => false

/-- The turn number a trajectory entry carries, if any. -/
def pointTurn : Json → Option ℕ
  | .obj fields =>
      (match getField fields "turn" with
       | .ok (.num q) =>
           if q.den = 1 ∧ 0 ≤ q.num then some q.num.toNat else none
       | _ => none)
  | _ => none

/-- Modelled from the spec: a well-formed transition record of the section 6
layout. -/
def wfTransition : Json → Bool
  | .obj fields =>
      fieldCheck fields "turn" wfNat && fieldCheck fields "from" wfZone &&
        fieldCheck fields "to" wfZone
  | _ => false

/-- Modelled from the spec: a well-formed transitions value is an array of
well-formed transition records. -/
def wfTransitionArr : Json → Bool
  | .arr l => l.all wfTransition
  | _ => false

/-- Modelled from the spec: a well-formed summary object of the section 6
layout. -/
def wfSummary : Json → Bool
  | .obj fields =>
      fieldCheck fields "avg_x" wfOptNum && fieldCheck fields "avg_y" wfOptNum &&
        fieldCheck fields "avg_z" wfOptNum &&
        fieldCheck fields "dominant_zone" wfOptZone &&
        fieldCheck fields "drift_direction" wfDrift &&
        fieldCheck fields "transitions" wfTransitionArr
  | _ => false

/-- Modelled from the spec: a well-formed trajectory value is an array of
well-formed entries whose turn numbers are strictly increasing. -/
def wfTrajArr : Json → Bool
  | .arr l =>
      l.all wfPoint &&
        decide (List.Chain' (fun a b => a < b) (l.filterMap pointTurn))
  | _ => false

/-- Modelled from the spec: a well-formed session document of the section 6
layout, every required top level field present and well formed. -/
def wellFormedDoc : Json → Bool
  | .obj fields =>
      fieldCheck fields "session_id" wfString &&
        fieldCheck fields "model" wfOptString &&
        fieldCheck fields "trajectory" wfTrajArr &&
        fieldCheck fields "summary" wfSummary
  | _ => false

/-- A five point session spanning Green, Gold and Yellow, the witness
session for the roundtrip law. -/
def sampleTraj : List Point :=
  [⟨1, mkRat 15 100, mkRat 12 100, mkRat 88 100,
      classify (mkRat 15 100) (mkRat 12 100) (mkRat 88 100), some "greeting"⟩,
   ⟨2, mkRat 20 100, mkRat 22 100, mkRat 85 100,
      classify (mkRat 20 100) (mkRat 22 100) (mkRat 85 100), none⟩,
   ⟨3, mkRat 35 100, mkRat 40 100, mkRat 72 100,
      classify (mkRat 35 100) (mkRat 40 100) (mkRat 72 100), none⟩,
   ⟨4, mkRat 42 100, mkRat 45 100, mkRat 71 100,
      classify (mkRat 42 100) (mkRat 45 100) (mkRat 71 100), none⟩,
   ⟨5, mkRat 75 100, mkRat 78 100, mkRat 45 100,
      classify (mkRat 75 100) (mkRat 78 100) (mkRat 45 100), none⟩]

/-- The witness session: five points, trajectory spanning Green to Gold to
Yellow, summary recomputed from the trajectory. -/
def sampleSession : Session :=
  ⟨"a7f3b2c1", some "GPT-4", sampleTraj, computeSummary sampleTraj⟩

theorem zoneOfString_zoneToString (z : ZoneLabel) :
    zoneOfString (zoneToString z) = some z := by
  cases z <;> rfl

theorem driftOfString_driftToString (d : Drift) :
    driftOfString (driftToString d) = some d := by
  cases d <;> rfl

theorem asOptString_optStrJson (o : Option String) :
    asOptString (optStrJson o) = .ok o := by
  cases o <;> rfl

theorem asOptNum_optNumJson (o : Option ℚ) :
    asOptNum (optNumJson o) = .ok o := by
  cases o <;> rfl

theorem asZone_zoneToString (z : ZoneLabel) :
    asZone (.str (zoneToString z)) = .ok z := by
  simp [asZone, zoneOfString_zoneToString]

theorem asOptZone_optZoneJson (o : Option ZoneLabel) :
    asOptZone (optZoneJson o) = .ok o := by
  cases o with
  | none => rfl
  | some z => simp [optZoneJson, asOptZone, zoneOfString_zoneToString]

theorem asDrift_driftToString (d : Drift) :
    asDrift (.str (driftToString d)) = .ok d := by
  simp [asDrift, driftOfString_driftToString]

theorem asNat_natCast (n : ℕ) : asNat (.num n) = .ok n := by
  simp [asNat]

theorem asCoord_ok (q : ℚ) (h0 : 0 ≤ q) (h1 : q ≤ 1) :
    asCoord (.num q) = .ok q := by
  simp [asCoord, h0, h1]

theorem parsePoint_savePoint (p : Point) (h : p.inRange) :
    parsePoint (savePoint p) = .ok p := by
  obtain ⟨hx0, hx1, hy0, hy1, hz0, hz1⟩ := h
  simp [parsePoint, savePoint, parseField, getField, asObj, asNat_natCast,
    asCoord_ok _ hx0 hx1, asCoord_ok _ hy0 hy1, asCoord_ok _ hz0 hz1,
    asZone_zoneToString, asOptString_optStrJson]

theorem parsePoints_map_savePoint (l : List Point) (h : ∀ p ∈ l, p.inRange) :
    parsePoints (l.map savePoint) = .ok l := by
  induction l with
  | nil => rfl
  | cons p rest ih =>
      have hp : p.inRange := h p (by simp)
      have hrest : ∀ q ∈ rest, q.inRange := fun q hq => h q (by simp [hq])
      simp [parsePoints, parsePoint_savePoint p hp, ih hrest]

theorem parseTransition_saveTransition (t : Transition) :
    parseTransition (saveTransition t) = .ok t := by
  simp [parseTransition, saveTransition, parseField, getField, asObj,
    asNat_natCast, asZone_zoneToString]

theorem parseTransitions_map_saveTransition (l : List Transition) :
    parseTransitions (l.map saveTransition) = .ok l := by
  induction l with
  | nil => rfl
  | cons t rest ih =>
      simp [parseTransitions, parseTransition_saveTransition, ih]

theorem parseSummary_saveSummary (m : Summary) :
    parseSummary (saveSummary m) = .ok m := by
  simp [parseSummary, saveSummary, parseField, getField, asObj,
    asOptNum_optNumJson, asOptZone_optZoneJson, asDrift_driftToString,
    asTransitionList, asArr, parseTransitions_map_saveTransition]

theorem load_save (s : Session) (hrange : ∀ p ∈ s.trajectory, p.inRange)
    (hmono : List.Chain' (fun p q => p.turn < q.turn) s.trajectory) :
    load (save s) = .ok s := by
  simp [load, save, parseField, getField, asObj, asString,
    asOptString_optStrJson, asPointList, asArr,
    parsePoints_map_savePoint s.trajectory hrange, hmono,
    parseSummary_saveSummary]

theorem okB_asString (j : Json) : okB (asString j) = wfString j := by
  cases j <;> rfl

theorem okB_asOptString (j : Json) : okB (asOptString j) = wfOptString j := by
  cases j <;> rfl

theorem okB_asOptNum (j : Json) : okB (asOptNum j) = wfOptNum j := by
  cases j <;> rfl

theorem okB_asNat (j : Json) : okB (asNat j) = wfNat j := by
  cases j <;> try rfl
  case num q =>
    simp only [asNat, wfNat]
    split <;> rename_i h <;> simp [okB, h]
    intro hden
    by_contra hq
    exact h ⟨hden, Rat.num_nonneg.mpr (le_of_not_lt hq)⟩

theorem okB_asCoord (j : Json) : okB (asCoord j) = wfCoord j := by
  cases j <;> try rfl
  case num q =>
    simp only [asCoord, wfCoord]
    split <;> rename_i h <;> simp [okB, h]

theorem okB_asZone (j : Json) : okB (asZone j) = wfZone j := by
  cases j <;> try rfl
  case str s =>
    cases h : zoneOfString s <;> simp [asZone, wfZone, h, okB]

theorem okB_asOptZone (j : Json) : okB (asOptZone j) = wfOptZone j := by
  cases j <;> try rfl
  case str s =>
    cases h : zoneOfString s <;> simp [asOptZone, wfOptZone, h, okB]

theorem okB_asDrift (j : Json) : okB (asDrift j) = wfDrift j := by
  cases j <;> try rfl
  case str s =>
    cases h : driftOfString s <;> simp [asDrift, wfDrift, h, okB]

theorem parseField_check {α : Type} (fields : List (String × Json))
    (name : String) (p : Json → Except String α) (check : Json → Bool)
    (hp : ∀ j, okB (p j) = check j) :
    okB (parseField fields name p) = fieldCheck fields name check := by
  cases h : getField fields name with
  | error e => simp [parseField, fieldCheck, h, okB]
  | ok j =>
      simp only [parseField, fieldCheck, h]
      exact hp j

theorem okB_parsePoint (j : Json) : okB (parsePoint j) = wfPoint j := by
  cases j <;> try rfl
  case obj fields =>
    rw [wfPoint,
      ← parseField_check fields "turn" asNat wfNat okB_asNat,
      ← parseField_check fields "x" asCoord wfCoord okB_asCoord,
      ← parseField_check fields "y" asCoord wfCoord okB_asCoord,
      ← parseField_check fields "z" asCoord wfCoord okB_asCoord,
      ← parseField_check fields "zone" asZone wfZone okB_asZone,
      ← parseField_check fields "topic" asOptString wfOptString okB_asOptString]
    simp only [parsePoint, asObj]
    cases parseField fields "turn" asNat <;>
      cases parseField fields "x" asCoord <;>
        cases parseField fields "y" asCoord <;>
          cases parseField fields "z" asCoord <;>
            cases parseField fields "zone" asZone <;>
              cases parseField fields "topic" asOptString <;>
                rfl

theorem okB_parsePoints (l : List Json) : okB (parsePoints l) = l.all wfPoint := by
  induction l with
  | nil => rfl
  | cons j rest ih =>
      rw [List.all_cons, ← okB_parsePoint, ← ih]
      simp only [parsePoints]
      cases parsePoint j <;> cases parsePoints rest <;> rfl

theorem pointTurn_eq (fields : List (String × Json)) :
    pointTurn (.obj fields) =
      (match parseField fields "turn" asNat with
       | .ok t => some t
       | .error _ => none) := by
  rw [pointTurn, parseField]
  cases h : getField fields "turn" with
  | error e => rfl
  | ok j' =>
      cases j' <;> try rfl
      case num q =>
        simp only [asNat]
        by_cases hc : q.den = 1 ∧ 0 ≤ q.num
        · simp only [if_pos hc]
        · simp only [if_neg hc]

theorem parsePoint_turn (j : Json) (p : Point) (h : parsePoint j = .ok p) :
    pointTurn j = some p.turn := by
  cases j <;> try exact Except.noConfusion h
  case obj fields =>
    rw [pointTurn_eq]
    revert h
    simp only [parsePoint, asObj]
    cases parseField fields "turn" asNat <;>
      cases parseField fields "x" asCoord <;>
        cases parseField fields "y" asCoord <;>
          cases parseField fields "z" asCoord <;>
            cases parseField fields "zone" asZone <;>
              cases parseField fields "topic" asOptString <;>
                intro h
    all_goals
      first
        | exact Except.noConfusion h
        | (injection h with h; subst h; rfl)

theorem parsePoints_turns (l : List Json) (ps : List Point)
    (h : parsePoints l = .ok ps) :
    l.filterMap pointTurn = ps.map Point.turn := by
  induction l generalizing ps with
  | nil =>
      injection h with h
      subst h
      rfl
  | cons j rest ih =>
      revert h
      simp only [parsePoints]
      cases h1 : parsePoint j with
      | error e => intro h; exact Except.noConfusion h
      | ok p =>
          cases h2 : parsePoints rest with
          | error e => intro h; exact Except.noConfusion h
          | ok ps' =>
              intro h
              injection h with h
              subst h
              simp [List.filterMap_cons, parsePoint_turn j p h1, ih ps' h2]

theorem okB_parseTransition (j : Json) : okB (parseTransition j) = wfTransition j := by
  cases j <;> try rfl
  case obj fields =>
    rw [wfTransition,
      ← parseField_check fields "turn" asNat wfNat okB_asNat,
      ← parseField_check fields "from" asZone wfZone okB_asZone,
      ← parseField_check fields "to" asZone wfZone okB_asZone]
    simp only [parseTransition, asObj]
    cases parseField fields "turn" asNat <;>
      cases parseField fields "from" asZone <;>
        cases parseField fields "to" asZone <;>
          rfl

theorem okB_parseTransitions (l : List Json) :
    okB (parseTransitions l) = l.all wfTransition := by
  induction l with
  | nil => rfl
  | cons j rest ih =>
      rw [List.all_cons, ← okB_parseTransition, ← ih]
      simp only [parseTransitions]
      cases parseTransition j <;> cases parseTransitions rest <;> rfl

theorem okB_asTransitionList (j : Json) :
    okB (asTransitionList j) = wfTransitionArr j := by
  cases j <;> try rfl
  case arr l =>
    simp only [asTransitionList, asArr, wfTransitionArr]
    exact okB_parseTransitions l

theorem okB_parseSummary (j : Json) : okB (parseSummary j) = wfSummary j := by
  cases j <;> try rfl
  case obj fields =>
    rw [wfSummary,
      ← parseField_check fields "avg_x" asOptNum wfOptNum okB_asOptNum,
      ← parseField_check fields "avg_y" asOptNum wfOptNum okB_asOptNum,
      ← parseField_check fields "avg_z" asOptNum wfOptNum okB_asOptNum,
      ← parseField_check fields "dominant_zone" asOptZone wfOptZone okB_asOptZone,
      ← parseField_check fields "drift_direction" asDrift wfDrift okB_asDrift,
      ← parseField_check fields "transitions" asTransitionList wfTransitionArr
          okB_asTransitionList]
    simp only [parseSummary, asObj]
    cases parseField fields "avg_x" asOptNum <;>
      cases parseField fields "avg_y" asOptNum <;>
        cases parseField fields "avg_z" asOptNum <;>
          cases parseField fields "dominant_zone" asOptZone <;>
            cases parseField fields "drift_direction" asDrift <;>
              cases parseField fields "transitions" asTransitionList <;>
                rfl

theorem fieldCheck_traj (fields : List (String × Json)) :
    fieldCheck fields "trajectory" wfTrajArr =
      (match parseField fields "trajectory" asPointList with
       | .ok traj => decide (List.Chain' (fun p q => p.turn < q.turn) traj)
       | .error _ => false) := by
  rw [fieldCheck, parseField]
  cases h : getField fields "trajectory" with
  | error e => rfl
  | ok j' =>
      cases j' <;> try rfl
      case arr l =>
        simp only [wfTrajArr, asPointList, asArr]
        cases hp : parsePoints l with
        | error e =>
            have hall : l.all wfPoint = false := by
              rw [← okB_parsePoints, hp]; rfl
            simp [hall]
        | ok ps =>
            have hall : l.all wfPoint = true := by
              rw [← okB_parsePoints, hp]; rfl
            have ht : l.filterMap pointTurn = ps.map Point.turn :=
              parsePoints_turns l ps hp
            simp only [hall, ht, Bool.true_and]
            exact decide_eq_decide.mpr (List.chain'_map Point.turn)

/-- C7: load succeeds exactly on well-formed session documents; a document
missing a required field, carrying an out-of-range coordinate, or carrying
non-monotonic turn numbers is rejected with an error, and by the result
type no partially populated Session is ever produced. -/
theorem okB_load (j : Json) : okB (load j) = wellFormedDoc j := by
  cases j <;> try rfl
  case obj fields =>
    rw [wellFormedDoc,
      ← parseField_check fields "session_id" asString wfString okB_asString,
      ← parseField_check fields "model" asOptString wfOptString okB_asOptString,
      ← parseField_check fields "summary" parseSummary wfSummary okB_parseSummary,
      fieldCheck_traj fields]
    simp only [load, asObj]
    cases parseField fields "session_id" asString <;>
      cases parseField fields "model" asOptString <;>
        cases parseField fields "trajectory" asPointList <;>
          cases parseField fields "summary" parseSummary <;>
            simp [okB]
    rename_i sid model traj summ
    by_cases hc : List.Chain' (fun p q => p.turn < q.turn) traj <;>
      simp [hc, okB]

end ALMG

namespace Site

/-- The desktopOverlay element as manipulated by assets/js/main.js: whether
its class list currently holds the hidden class. -/
structure OverlayEl where
  hidden : Bool
deriving DecidableEq, Repr

/-- The slice of the document that assets/js/main.js touches: the result of
looking up desktopOverlay by id (null when absent) and the body overflow
style. -/
structure Dom where
  overlay : Option OverlayEl
  bodyOverflow : String
deriving DecidableEq, Repr

/-- A thrown JavaScript TypeError, as raised by dereferencing null. -/
inductive JsError where
  | typeError (msg : String)
deriving DecidableEq, Repr

/-- Embedded from assets/js/main.js, toggleDesktop (lines 5 to 15): the
element lookup is unguarded, so when desktopOverlay is absent the classList
dereference throws; otherwise the hidden class is toggled and the body
overflow style set to hidden exactly when the overlay ends up shown. -/
def toggleDesktop (d : Dom) : Except JsError Dom :=
  match d.overlay with
  | none => .error (.typeError "cannot read classList of null")
  | some ov =>
      let ov' : OverlayEl := ⟨!ov.hidden⟩
      if !ov'.hidden then .ok ⟨some ov', "hidden"⟩
      else .ok ⟨some ov', ""⟩

/-- Embedded from assets/js/main.js, closeDesktop (lines 17 to 21): the
element lookup is unguarded; otherwise the hidden class is added and the
body overflow style cleared. -/
def closeDesktop (d : Dom) : Except JsError Dom :=
  match d.overlay with
  | none => .error (.typeError "cannot read classList of null")
  | some _ => .ok ⟨some ⟨true⟩, ""⟩

/-- Embedded from assets/js/main.js, document keydown listener (lines 24 to
28): on Escape it calls closeDesktop unconditionally. -/
def onKeydown (key : String) (d : Dom) : Except JsError Dom :=
  if key = "Escape" then closeDesktop d else .ok d

/-- Embedded from assets/js/main.js, click listener registration (lines 31
to 35): the lookup uses optional chaining, so a missing element makes the
registration a no-op; the boolean reports whether a listener was attached. -/
def registerClickOutside (d : Dom) : Except JsError Bool :=
  match d.overlay with
  | none => .ok false
  | some _ => .ok true

/-- The outcome of the fetch awaited inside loadContent. -/
inductive FetchOutcome where
  | success (body : String)
  | httpError
  | networkFailure
deriving DecidableEq, Repr

/-- Embedded from assets/js/main.js, the try block of loadContent (lines 95
to 98): fetch, throw on a response that is not ok, otherwise return the
body text. -/
def fetchText : FetchOutcome → Except String String
  | .success body => .ok body
  | .httpError => .error "Content not found"
  | .networkFailure => .error "Failed to fetch"

/-- Embedded from assets/js/main.js, loadContent (lines 94 to 103): any
error thrown in the try block is caught, logged to the console, and replaced
by fallback markup returned as an ordinary successful result. -/
def loadContent (o : FetchOutcome) : Except String String :=
  match fetchText o with
  | .ok t => .ok t
  | .error _ => .ok "<p>Content could not be loaded.</p>"

end Site

namespace ALMG

/-- C1: for coordinates in the unit interval, classify returns exactly one
zone label, determined by first-match-wins evaluation over the bands in the
fixed order Green, Gold, Yellow, Red, Purple, with Unclassified exactly when
no band matches; a triple in several bands resolves to the earliest one. -/
theorem classify_first_match_wins (x y z : ℚ)
    (hx : 0 ≤ x ∧ x ≤ 1) (hy : 0 ≤ y ∧ y ≤ 1) (hz : 0 ≤ z ∧ z ≤ 1) :
    (classify x y z = .Green ↔ greenBand x y z) ∧
    (classify x y z = .Gold ↔ ¬greenBand x y z ∧ goldBand x y z) ∧
    (classify x y z = .Yellow ↔
      ¬greenBand x y z ∧ ¬goldBand x y z ∧ yellowBand x y z) ∧
    (classify x y z = .Red ↔
      ¬greenBand x y z ∧ ¬goldBand x y z ∧ ¬yellowBand x y z ∧ redBand x y z) ∧
    (classify x y z = .Purple ↔
      ¬greenBand x y z ∧ ¬goldBand x y z ∧ ¬yellowBand x y z ∧ ¬redBand x y z ∧
        purpleBand x y z) ∧
    (classify x y z = .Unclassified ↔
      ¬greenBand x y z ∧ ¬goldBand x y z ∧ ¬yellowBand x y z ∧ ¬redBand x y z ∧
        ¬purpleBand x y z) := by
  unfold classify
  split_ifs with h1 h2 h3 h4 h5 <;> simp_all

/-- Witness for C1 at the Green example point (0.15, 0.12, 0.88). -/
theorem classify_first_match_wins_witness :
    (0 ≤ mkRat 15 100 ∧ mkRat 15 100 ≤ 1) ∧
    (0 ≤ mkRat 12 100 ∧ mkRat 12 100 ≤ 1) ∧
    (0 ≤ mkRat 88 100 ∧ mkRat 88 100 ≤ 1) ∧
    (classify (mkRat 15 100) (mkRat 12 100) (mkRat 88 100) = .Green ↔
      greenBand (mkRat 15 100) (mkRat 12 100) (mkRat 88 100)) :=
  ⟨by decide, by decide, by decide,
    (classify_first_match_wins (mkRat 15 100) (mkRat 12 100) (mkRat 88 100)
      (by decide) (by decide) (by decide)).1⟩

/-- C2: the roundtrip law, load after save reproduces any valid session
(coordinates in range, strictly increasing turn numbers, summary consistent
with the trajectory) up to semantic equality. -/
theorem load_save_roundtrip (s : Session) (h : s.Valid) : load (save s) = .ok s :=
  load_save s h.1 h.2.1

/-- Witness for C2: the five point sample session is valid, spans Green,
Gold and Yellow, and survives the roundtrip unchanged. -/
theorem load_save_roundtrip_witness :
    sampleSession.Valid ∧
    sampleSession.trajectory.map Point.zone =
      [.Green, .Green, .Gold, .Gold, .Yellow] ∧
    load (save sampleSession) = .ok sampleSession :=
  have h : sampleSession.Valid :=
    ⟨by decide, by simp [sampleSession, sampleTraj, List.chain'_cons], rfl⟩
  ⟨h, by decide, load_save_roundtrip sampleSession h⟩

theorem addAll_trajectory_turns (s : Session)
    (inputs : List (ℚ × ℚ × ℚ × Option String))
    (h : s.trajectory.map Point.turn = List.range' 1 s.trajectory.length) :
    (addAll s inputs).trajectory.length = s.trajectory.length + inputs.length ∧
      (addAll s inputs).trajectory.map Point.turn
        = List.range' 1 (s.trajectory.length + inputs.length) := by
  induction inputs generalizing s with
  | nil => exact ⟨by simp [addAll], by simp [addAll, h]⟩
  | cons i rest ih =>
      obtain ⟨x, y, z, t⟩ := i
      have hlen : (add_point s x y z t).trajectory.length
          = s.trajectory.length + 1 := by
        simp [add_point]
      have hmap : (add_point s x y z t).trajectory.map Point.turn
          = List.range' 1 ((add_point s x y z t).trajectory.length) := by
        rw [hlen]
        simp only [add_point, List.map_append, h, List.map_cons, List.map_nil]
        rw [List.range'_concat]
        simp [Nat.add_comm]
      have hrec := ih (add_point s x y z t) hmap
      rw [hlen] at hrec
      constructor
      · simpa [addAll, Nat.add_assoc, Nat.add_comm 1 rest.length] using hrec.1
      · simpa [addAll, Nat.add_assoc, Nat.add_comm 1 rest.length] using hrec.2

theorem addAll_summary_consistent (s : Session)
    (inputs : List (ℚ × ℚ × ℚ × Option String))
    (h : s.summary = computeSummary s.trajectory) :
    (addAll s inputs).summary = computeSummary (addAll s inputs).trajectory := by
  induction inputs generalizing s with
  | nil => simpa using h
  | cons i rest ih =>
      obtain ⟨x, y, z, t⟩ := i
      exact ih (add_point s x y z t) rfl

/-- C3: n calls of add_point starting from a fresh session produce a
trajectory of length n whose turn numbers are exactly 1 to n in order, hence
strictly increasing, and the summary is the one recomputed from the full
trajectory. -/
theorem add_point_sequential_turns (sid : String) (model : Option String)
    (inputs : List (ℚ × ℚ × ℚ × Option String)) :
    (addAll (freshSession sid model) inputs).trajectory.length = inputs.length ∧
    (addAll (freshSession sid model) inputs).trajectory.map Point.turn
      = List.range' 1 inputs.length ∧
    List.Chain' (fun a b => a < b)
      ((addAll (freshSession sid model) inputs).trajectory.map Point.turn) ∧
    (addAll (freshSession sid model) inputs).summary
      = computeSummary (addAll (freshSession sid model) inputs).trajectory := by
  have h := addAll_trajectory_turns (freshSession sid model) inputs (by rfl)
  have h1 : (addAll (freshSession sid model) inputs).trajectory.length
      = inputs.length := by simpa [freshSession] using h.1
  have h2 : (addAll (freshSession sid model) inputs).trajectory.map Point.turn
      = List.range' 1 inputs.length := by simpa [freshSession] using h.2
  refine ⟨h1, h2, ?_, addAll_summary_consistent _ _ rfl⟩
  rw [h2]
  exact (List.pairwise_lt_range' 1 inputs.length).chain'

/-- C4: the worked example, three points classified Green, Gold, Yellow in
turn, producing the two transition records stamped with the turn of the
later point of each differing adjacent pair, and drift toward yellow. -/
theorem example_session_summary :
    (addAll (freshSession "s" none)
        [(mkRat 15 100, mkRat 12 100, mkRat 88 100, none),
         (mkRat 35 100, mkRat 40 100, mkRat 72 100, none),
         (mkRat 75 100, mkRat 78 100, mkRat 45 100, none)]).trajectory.map
        Point.zone = [.Green, .Gold, .Yellow] ∧
    (addAll (freshSession "s" none)
        [(mkRat 15 100, mkRat 12 100, mkRat 88 100, none),
         (mkRat 35 100, mkRat 40 100, mkRat 72 100, none),
         (mkRat 75 100, mkRat 78 100, mkRat 45 100, none)]).summary.transitions
      = [⟨2, .Green, .Gold⟩, ⟨3, .Gold, .Yellow⟩] ∧
    (addAll (freshSession "s" none)
        [(mkRat 15 100, mkRat 12 100, mkRat 88 100, none),
         (mkRat 35 100, mkRat 40 100, mkRat 72 100, none),
         (mkRat 75 100, mkRat 78 100, mkRat 45 100, none)]).summary.drift_direction
      = .toward_yellow := by
  refine ⟨by decide, by decide, by decide⟩

/-- C5: the zone band comparisons are strict, the Green corner point
(0.3, 0.3, 0.8) is not Green, while (0.29, 0.29, 0.81) is. -/
theorem classify_boundary_strict :
    classify (mkRat 3 10) (mkRat 3 10) (mkRat 8 10) ≠ .Green ∧
    classify (mkRat 29 100) (mkRat 29 100) (mkRat 81 100) = .Green := by
  decide

/-- C6 counterexample: at x = 0.96 the point (0.96, 0.9, 0.1), with both
coordinates inside the unit interval, lies in the Purple band, so classify
returns Purple and not Unclassified, refuting the claim that every point
with x = 0.96 is unclassified. -/
theorem classify_x96_purple_counterexample :
    classify (mkRat 96 100) (mkRat 9 10) (mkRat 1 10) = .Purple ∧
    classify (mkRat 96 100) (mkRat 9 10) (mkRat 1 10) ≠ .Unclassified := by
  decide

/-- C6 amended: a point with x = 0.96 is outside the x bounds of the Green,
Gold, Yellow and Red bands but inside the Purple one, so it classifies as
Purple when y > 0.85 and z < 0.2 and as Unclassified otherwise. -/
theorem classify_x96 (y z : ℚ) (hy : 0 ≤ y ∧ y ≤ 1) (hz : 0 ≤ z ∧ z ≤ 1) :
    classify (mkRat 96 100) y z =
      (if mkRat 85 100 < y ∧ z < mkRat 2 10 then .Purple else .Unclassified) := by
  have h1 : ¬ (mkRat 96 100 < mkRat 3 10) := by decide
  have h2 : ¬ (mkRat 96 100 < mkRat 5 10) := by decide
  have h3 : ¬ (mkRat 96 100 < mkRat 8 10) := by decide
  have h4 : ¬ (mkRat 96 100 < mkRat 95 100) := by decide
  have h5 : mkRat 9 10 < mkRat 96 100 := by decide
  simp [classify, greenBand, goldBand, yellowBand, redBand, purpleBand,
    h1, h2, h3, h4, h5]

/-- Witness for the amended C6 in the Purple corner. -/
theorem classify_x96_witness :
    (0 ≤ mkRat 9 10 ∧ mkRat 9 10 ≤ 1) ∧ (0 ≤ mkRat 1 10 ∧ mkRat 1 10 ≤ 1) ∧
    classify (mkRat 96 100) (mkRat 9 10) (mkRat 1 10) =
      (if mkRat 85 100 < mkRat 9 10 ∧ mkRat 1 10 < mkRat 2 10 then
        ZoneLabel.Purple
      else ZoneLabel.Unclassified) :=
  ⟨by decide, by decide,
    classify_x96 (mkRat 9 10) (mkRat 1 10) (by decide) (by decide)⟩

/-- C8: the summary of a fresh, empty session reports the averages as
absent (no data, not zero), leaves the dominant zone undefined, and carries
stable drift and no transitions; computing it is a total operation. -/
theorem summary_empty_session (sid : String) (model : Option String) :
    (freshSession sid model).summary =
      ⟨none, none, none, none, .stable, []⟩ := rfl

end ALMG

namespace Site

/-- C9 counterexample: a failed content fetch is swallowed by loadContent,
which returns the fallback markup as a successful result instead of
reporting the failure and aborting the operation. -/
theorem loadContent_swallows_failure :
    ALMG.okB (fetchText .networkFailure) = false ∧
    ALMG.okB (loadContent .networkFailure) = true ∧
    loadContent .networkFailure = .ok "<p>Content could not be loaded.</p>" :=
  ⟨rfl, rfl, rfl⟩

/-- C9 amended: store errors abort with a message, but every failed fetch
in loadContent is caught and replaced by the fallback markup returned as a
successful result, so the caller cannot distinguish it from success. -/
theorem loadContent_fallback (o : FetchOutcome)
    (h : ALMG.okB (fetchText o) = false) :
    loadContent o = .ok "<p>Content could not be loaded.</p>" := by
  cases o <;> simp_all [fetchText, loadContent, ALMG.okB]

/-- Witness for the amended C9 at an http error response. -/
theorem loadContent_fallback_witness :
    ALMG.okB (fetchText .httpError) = false ∧
    loadContent .httpError = .ok "<p>Content could not be loaded.</p>" :=
  ⟨rfl, loadContent_fallback .httpError rfl⟩

/-- C10: on a page without the desktopOverlay element, toggleDesktop and
closeDesktop throw a TypeError, hence the document level Escape handler
throws as well; only the click outside registration guards the lookup with
optional chaining and is a no-op. -/
theorem missing_overlay_throws (d : Dom) (h : d.overlay = none) :
    toggleDesktop d = .error (.typeError "cannot read classList of null") ∧
    closeDesktop d = .error (.typeError "cannot read classList of null") ∧
    onKeydown "Escape" d = .error (.typeError "cannot read classList of null") ∧
    registerClickOutside d = .ok false := by
  cases d with
  | mk ov body =>
      cases h
      exact ⟨rfl, rfl, rfl, rfl⟩

/-- Witness for C10 on the empty page state. -/
theorem missing_overlay_throws_witness :
    (Dom.mk none "").overlay = none ∧
    toggleDesktop ⟨none, ""⟩ =
      .error (.typeError "cannot read classList of null") ∧
    closeDesktop ⟨none, ""⟩ =
      .error (.typeError "cannot read classList of null") ∧
    onKeydown "Escape" ⟨none, ""⟩ =
      .error (.typeError "cannot read classList of null") ∧
    registerClickOutside ⟨none, ""⟩ = .ok false :=
  ⟨rfl, missing_overlay_throws ⟨none, ""⟩ rfl⟩

end Site
